import Mathlib

/-!
Shallow embedding of `src/main.go` (a build-time utility that fetches one
remote image, validates it by decoding, base64-encodes the original bytes
into a data URI, renders a README from a template and writes it).

Go strings are modelled as `List Char`, Go `[]byte` as `List Nat` with each
entry below 256.  External effects (the HTTP round trip, the third-party
image decoders, reading the template file, `time.Now`) are passed in as
explicit values or function parameters; everything the repository itself
computes is translated directly from the source.
-/

/-- Go strings, modelled as lists of characters. -/
abbrev GoStr := List Char

/-- Go byte slices, modelled as lists of naturals (each intended `< 256`). -/
abbrev Bytes := List Nat

/-- Go `strings.HasPrefix p s` check (case-sensitive, byte-literal), from
`strings.HasPrefix` as used at src/main.go:95-99: `goHasPref p s` is true
iff `p` is a literal leading segment of `s`. -/
def goHasPref : GoStr → GoStr → Bool
  | [], _ => true
  | _ :: _, [] => false
  | a :: as, b :: bs => a == b && goHasPref as bs

/-- The MIME string literal `"image/webp"` of src/main.go:95. -/
def mimeWebp : GoStr := ['i', 'm', 'a', 'g', 'e', '/', 'w', 'e', 'b', 'p']

/-- The MIME string literal `"image/jpeg"` of src/main.go:97. -/
def mimeJpeg : GoStr := ['i', 'm', 'a', 'g', 'e', '/', 'j', 'p', 'e', 'g']

/-- The MIME string literal `"image/png"` of src/main.go:99. -/
def mimePng : GoStr := ['i', 'm', 'a', 'g', 'e', '/', 'p', 'n', 'g']

/-- The character standing for the six-bit value `n` in the standard base64
alphabet (`A-Z`, `a-z`, `0-9`, `+`, `/`), as used by Go
`base64.StdEncoding`. -/
def sixBitToChar (n : Nat) : Char :=
  if n < 26 then Char.ofNat (65 + n)
  else if n < 52 then Char.ofNat (97 + (n - 26))
  else if n < 62 then Char.ofNat (48 + (n - 52))
  else if n = 62 then '+'
  else '/'

/-- Inverse of the standard base64 alphabet: the six-bit value of a
character, or `none` for characters outside the alphabet. -/
def charToSixBit (c : Char) : Option Nat :=
  if 'A' ≤ c ∧ c ≤ 'Z' then some (c.toNat - 65)
  else if 'a' ≤ c ∧ c ≤ 'z' then some (c.toNat - 97 + 26)
  else if '0' ≤ c ∧ c ≤ '9' then some (c.toNat - 48 + 52)
  else if c = '+' then some 62
  else if c = '/' then some 63
  else none

/-- Go `base64.StdEncoding.EncodeToString` (src/main.go:111): standard
base64 with `=` padding, three input bytes per four output characters. -/
def base64EncodeChars : Bytes → GoStr
  | [] => []
  | [a] =>
      [sixBitToChar (a / 4), sixBitToChar (a % 4 * 16), '=', '=']
  | [a, b] =>
      [sixBitToChar (a / 4), sixBitToChar (a % 4 * 16 + b / 16),
       sixBitToChar (b % 16 * 4), '=']
  | a :: b :: c :: rest =>
      sixBitToChar (a / 4) :: sixBitToChar (a % 4 * 16 + b / 16) ::
      sixBitToChar (b % 16 * 4 + c / 64) :: sixBitToChar (c % 64) ::
      base64EncodeChars rest

/-- Standard base64 decoding with `=` padding: `none` on any malformed
input, otherwise the decoded bytes.  Used to state the round-trip
property of the data-URI payload. -/
def base64DecodeChars : GoStr → Option Bytes
  | [] => some []
  | c1 :: c2 :: c3 :: c4 :: rest =>
      match charToSixBit c1, charToSixBit c2 with
      | some n1, some n2 =>
          if c3 = '=' then
            if c4 = '=' ∧ rest = [] then some [n1 * 4 + n2 / 16] else none
          else
            match charToSixBit c3 with
            | some n3 =>
                if c4 = '=' then
                  if rest = [] then
                    some [n1 * 4 + n2 / 16, n2 % 16 * 16 + n3 / 4]
                  else none
                else
                  match charToSixBit c4 with
                  | some n4 =>
                      (base64DecodeChars rest).map
                        (fun l => (n1 * 4 + n2 / 16) :: (n2 % 16 * 16 + n3 / 4) ::
                                  (n3 % 4 * 64 + n4) :: l)
                  | none => none
            | none => none
      | _, _ => none
  | _ => none

/-- The wrapped errors the program can surface, one constructor per
`fmt.Errorf` / failure site of src/main.go, carrying the formatted-in
values. -/
inductive GoError
  | creatingRequest (inner : GoStr)
  | makingRequest (inner : GoStr)
  | unexpectedStatusCode (code : Nat)
  | readingResponseBody (inner : GoStr)
  | unsupportedImageType (mimeType : GoStr)
  | invalidImageData (mimeType : GoStr) (inner : GoStr)
  | readingTemplate (inner : GoStr)
  | parsingTemplate (inner : GoStr)
  | executingTemplate (inner : GoStr)
  deriving DecidableEq

/-- An image decoder of the Go standard library or `golang.org/x/image`
(`webp.Decode`, `jpeg.Decode`, `png.Decode`): third-party code, abstracted
as a function from the input bytes to success (the decoded pixels are
discarded by src/main.go:96-100 anyway) or a decode-error message. -/
abbrev Decoder := Bytes → Except GoStr Unit

/-- The three decoders dispatched to at src/main.go:95-100, as abstract
parameters. -/
structure Decoders where
  webpDecode : Decoder
  jpegDecode : Decoder
  pngDecode : Decoder

/-- An HTTP response as `fetchImage` observes it: status code, the
`Content-Type` header as returned by Go `Header.Get` (the empty string
when the header is absent), and the fully read body bytes. -/
structure HttpResponse where
  statusCode : Nat
  contentType : GoStr
  body : Bytes

/-- Go `func fetchImage` (src/main.go:54-87) from the point a response is
available; request construction, the network round trip and the body read
are external effects abstracted into the given `resp`, and
`http.DetectContentType` (stdlib sniffing) into the parameter `detect`.
Returns the body bytes and the resolved MIME type, or the
"unexpected status code" error on a non-200 status. -/
def fetchImage (detect : Bytes → GoStr) (resp : HttpResponse) :
    Except GoError (Bytes × GoStr) :=
  if resp.statusCode ≠ 200 then
    .error (.unexpectedStatusCode resp.statusCode)
  else
    let data := resp.body
    let mimeType := if resp.contentType = [] then detect data else resp.contentType
    .ok (data, mimeType)

/-- The common tail of `encodeImageToBase64` after a decoder was selected
and run (src/main.go:105-111): a decode error is wrapped as
"invalid image data", success base64-encodes the original bytes. -/
def afterDecode (mimeType : GoStr) (data : Bytes) :
    Except GoStr Unit → Except GoError GoStr
  | .error e => .error (.invalidImageData mimeType e)
  | .ok _ => .ok (base64EncodeChars data)

/-- Go `func encodeImageToBase64` (src/main.go:89-112): dispatch on the
MIME type by literal prefix match in the order webp, jpeg, png; for an
unmatched MIME type return the "unsupported image type" error without
running any decoder; otherwise run the selected decoder on the bytes and
finish with `afterDecode`. -/
def encodeImageToBase64 (decs : Decoders) (data : Bytes) (mimeType : GoStr) :
    Except GoError GoStr :=
  let selected : Option (Except GoStr Unit) :=
    if goHasPref mimeWebp mimeType then some (decs.webpDecode data)
    else if goHasPref mimeJpeg mimeType then some (decs.jpegDecode data)
    else if goHasPref mimePng mimeType then some (decs.pngDecode data)
    else none
  match selected with
  | none => .error (.unsupportedImageType mimeType)
  | some r => afterDecode mimeType data r

/-- A parsed `text/template` template restricted to the two placeholders
the repository's template uses (src/main.go:130-136): literal text,
`{{.ImageURL}}` and `{{.BuildTimestamp}}`. -/
inductive TemplatePiece
  | text (s : GoStr)
  | imageURL
  | buildTimestamp
  deriving DecidableEq

/-- A parsed template is a sequence of pieces. -/
abbrev Template := List TemplatePiece

/-- Substitution of one template piece, given the two field values bound
at src/main.go:130-136. -/
def substPiece (imageURL buildTimestamp : GoStr) : TemplatePiece → GoStr
  | .text s => s
  | .imageURL => imageURL
  | .buildTimestamp => buildTimestamp

/-- Go `tmpl.Execute` (src/main.go:138) on the restricted template model:
concatenate the pieces with the placeholders substituted. -/
def renderTemplate (tmpl : Template) (imageURL buildTimestamp : GoStr) : GoStr :=
  (tmpl.map (substPiece imageURL buildTimestamp)).flatten

/-- A wall-clock instant as Go `time.Now()` exposes it to `Format`:
calendar fields plus the zone offset from UTC in minutes. -/
structure Timestamp where
  year : Nat
  month : Nat
  day : Nat
  hour : Nat
  minute : Nat
  second : Nat
  tzOffsetMinutes : Int

/-- The decimal digit character for `d < 10`. -/
def digitChar (d : Nat) : Char := Char.ofNat (48 + d)

/-- Two-digit zero-padded decimal rendering, as Go layout `01`/`02`/... -/
def pad2 (n : Nat) : GoStr := [digitChar (n / 10), digitChar (n % 10)]

/-- Four-digit zero-padded decimal rendering, as Go layout `2006`. -/
def pad4 (n : Nat) : GoStr :=
  [digitChar (n / 1000), digitChar (n / 100 % 10), digitChar (n / 10 % 10),
   digitChar (n % 10)]

/-- Go layout element `Z07:00`: `Z` for a zero zone offset, otherwise the
signed `±hh:mm` offset. -/
def formatOffset (off : Int) : GoStr :=
  if off = 0 then ['Z']
  else if 0 < off then
    '+' :: (pad2 (off.toNat / 60) ++ ':' :: pad2 (off.toNat % 60))
  else
    '-' :: (pad2 ((-off).toNat / 60) ++ ':' :: pad2 ((-off).toNat % 60))

/-- Go `time.Time.Format(time.RFC3339)` (src/main.go:135) on the modelled
instant: `2006-01-02T15:04:05Z07:00`. -/
def formatRFC3339 (t : Timestamp) : GoStr :=
  pad4 t.year ++ '-' :: pad2 t.month ++ '-' :: pad2 t.day ++
  'T' :: pad2 t.hour ++ ':' :: pad2 t.minute ++ ':' :: pad2 t.second ++
  formatOffset t.tzOffsetMinutes

/-- Decimal digit test on characters. -/
def isDigitCh (c : Char) : Bool := '0' ≤ c && c ≤ '9'

/-- Checker for the zone-offset tail of an RFC3339 string: `Z` or
`±hh:mm`. -/
def isRFC3339Offset : GoStr → Bool
  | ['Z'] => true
  | [s, h1, h2, ':', m1, m2] =>
      (s = '+' || s = '-') && isDigitCh h1 && isDigitCh h2 &&
      isDigitCh m1 && isDigitCh m2
  | _ => false

/-- Checker that a character list has the RFC3339 shape
`dddd-dd-ddTdd:dd:dd` followed by a valid zone offset. -/
def isRFC3339 : GoStr → Bool
  | y1 :: y2 :: y3 :: y4 :: '-' :: mo1 :: mo2 :: '-' :: d1 :: d2 ::
    'T' :: h1 :: h2 :: ':' :: mi1 :: mi2 :: ':' :: s1 :: s2 :: rest =>
      isDigitCh y1 && isDigitCh y2 && isDigitCh y3 && isDigitCh y4 &&
      isDigitCh mo1 && isDigitCh mo2 && isDigitCh d1 && isDigitCh d2 &&
      isDigitCh h1 && isDigitCh h2 && isDigitCh mi1 && isDigitCh mi2 &&
      isDigitCh s1 && isDigitCh s2 && isRFC3339Offset rest
  | _ => false

/-- The data URI built at src/main.go:121:
`fmt.Sprintf("data:%s;base64,%s", mimeType, base64Data)`. -/
def dataURI (mimeType base64Data : GoStr) : GoStr :=
  "data:".toList ++ mimeType ++ ";base64,".toList ++ base64Data

/-- Go `func generateMarkdown` (src/main.go:114-143): reading and parsing
`tpl/README.md.tmpl` is filesystem input abstracted as `tmplRead` (an
already-parsed template, or the read/parse error), and `time.Now()` as
`now`; the function builds the data URI from the base64 payload and the
MIME type and renders the template with it and the RFC3339 timestamp. -/
def generateMarkdown (tmplRead : Except GoError Template) (now : Timestamp)
    (base64Data mimeType : GoStr) : Except GoError GoStr :=
  match tmplRead with
  | .error e => .error e
  | .ok tmpl =>
      .ok (renderTemplate tmpl (dataURI mimeType base64Data) (formatRFC3339 now))

/-- The per-request client timeout of src/main.go:56 (`10 * time.Second`),
in seconds. -/
def clientTimeoutSeconds : Nat := 10

/-- The overall context deadline of src/main.go:22 (`30 * time.Second`),
in seconds. -/
def overallDeadlineSeconds : Nat := 30

/-- The fixed output path of src/main.go:46. -/
def readmePath : GoStr := "README.md".toList

/-- Go `func main` (src/main.go:21-52) up to the value written: run the
three stages in order, propagating the first error (each `log.Fatalf`
aborts the run).  The result is the rendered README content on success. -/
def mainPipeline (detect : Bytes → GoStr) (decs : Decoders)
    (tmplRead : Except GoError Template) (now : Timestamp)
    (resp : HttpResponse) : Except GoError GoStr := do
  let fetched ← fetchImage detect resp
  let base64Data ← encodeImageToBase64 decs fetched.1 fetched.2
  generateMarkdown tmplRead now base64Data fetched.2

/-- The file writes `main` performs (src/main.go:46 is the only write):
on success exactly one write of the rendered document to `README.md`, on
any earlier fatal error no write at all. -/
def mainWrites (detect : Bytes → GoStr) (decs : Decoders)
    (tmplRead : Except GoError Template) (now : Timestamp)
    (resp : HttpResponse) : List (GoStr × GoStr) :=
  match mainPipeline detect decs tmplRead now resp with
  | .ok markdown => [(readmePath, markdown)]
  | .error _ => []

/-- Modelled from the spec: the file-based Materializer variant
(spec §4.3 Variant B) is not under src/ (src/main.go holds only the
inline variant); per the spec it maps the MIME type to a fixed extension
`{webp→.webp, jpeg→.jpg, png→.png}`. -/
def extensionForMime (mimeType : GoStr) : Option GoStr :=
  if mimeType = mimeWebp then some ".webp".toList
  else if mimeType = mimeJpeg then some ".jpg".toList
  else if mimeType = mimePng then some ".png".toList
  else none

/-- Modelled from the spec: the fixed image path base of Variant B
(spec §8 scenario names `assets/img/lastfm-top-albums` plus the mapped
extension). -/
def savedImageBase : GoStr := "assets/img/lastfm-top-albums".toList

/-- Modelled from the spec: Variant B's save step — write the raw bytes
unmodified to the fixed path with the static base filename and the
extension mapped from the detected MIME type; the fetch URL plays no
part in the chosen name.  Returns the (path, bytes) write performed. -/
def saveImageFile (_url : GoStr) (data : Bytes) (mimeType : GoStr) :
    Except GoError (GoStr × Bytes) :=
  match extensionForMime mimeType with
  | some ext => .ok (savedImageBase ++ ext, data)
  | none => .error (.unsupportedImageType mimeType)

/-- Success test on a Go-style `(value, error)` result: true iff the
error is nil. -/
def exceptIsOk {ε α : Type} : Except ε α → Bool
  | .ok _ => true
  | .error _ => false

/-- `containsSub sub l` says `sub` occurs contiguously inside `l`. -/
def containsSub (sub l : GoStr) : Prop := ∃ pre post, l = pre ++ sub ++ post

/-- The MIME type `fetchImage` resolves for a response
(src/main.go:81-84): the `Content-Type` header when non-empty, otherwise
the sniffed type. -/
def resolvedMime (detect : Bytes → GoStr) (resp : HttpResponse) : GoStr :=
  if resp.contentType ≠ [] then resp.contentType else detect resp.body

/-- Decoders that accept every input, used to instantiate theorems at
concrete points. -/
def okDecoders : Decoders :=
  ⟨fun _ => .ok (), fun _ => .ok (), fun _ => .ok ()⟩

/-- Decoders whose PNG decoder rejects every input, used to instantiate
failure theorems at concrete points. -/
def pngFailDecoders : Decoders :=
  ⟨fun _ => .ok (), fun _ => .ok (), fun _ => .error "not a PNG".toList⟩

/-- A fixed instant used to instantiate theorems at concrete points. -/
def sampleNow : Timestamp := ⟨2026, 10, 11, 12, 30, 45, 0⟩

lemma charToSixBit_sixBitToChar (n : Nat) (h : n < 64) :
    charToSixBit (sixBitToChar n) = some n := by
  have h64 : ∀ m : Fin 64, charToSixBit (sixBitToChar m.val) = some m.val := by decide
  exact h64 ⟨n, h⟩

lemma sixBitToChar_ne_eqpad (n : Nat) (h : n < 64) : sixBitToChar n ≠ '=' := by
  have h64 : ∀ m : Fin 64, sixBitToChar m.val ≠ '=' := by decide
  exact h64 ⟨n, h⟩

lemma base64_roundtrip (l : Bytes) (h : ∀ b ∈ l, b < 256) :
    base64DecodeChars (base64EncodeChars l) = some l := by
  induction l using base64EncodeChars.induct with
  | case1 => rfl
  | case2 a =>
      have ha : a < 256 := h a (by simp)
      simp only [base64EncodeChars, base64DecodeChars]
      rw [charToSixBit_sixBitToChar _ (by omega), charToSixBit_sixBitToChar _ (by omega)]
      simp
      omega
  | case3 a b =>
      have ha : a < 256 := h a (by simp)
      have hb : b < 256 := h b (by simp)
      have h1 : charToSixBit (sixBitToChar (a / 4)) = some (a / 4) :=
        charToSixBit_sixBitToChar _ (by omega)
      have h2 : charToSixBit (sixBitToChar (a % 4 * 16 + b / 16)) = some (a % 4 * 16 + b / 16) :=
        charToSixBit_sixBitToChar _ (by omega)
      have h3 : sixBitToChar (b % 16 * 4) ≠ '=' := sixBitToChar_ne_eqpad _ (by omega)
      have h4 : charToSixBit (sixBitToChar (b % 16 * 4)) = some (b % 16 * 4) :=
        charToSixBit_sixBitToChar _ (by omega)
      simp only [base64EncodeChars, base64DecodeChars]
      simp [h1, h2, h3, h4]
      omega
  | case4 a b c rest ih =>
      have ha : a < 256 := h a (by simp)
      have hb : b < 256 := h b (by simp)
      have hc : c < 256 := h c (by simp)
      have hrest : ∀ x ∈ rest, x < 256 := fun x hx => h x (by simp [hx])
      have h1 : charToSixBit (sixBitToChar (a / 4)) = some (a / 4) :=
        charToSixBit_sixBitToChar _ (by omega)
      have h2 : charToSixBit (sixBitToChar (a % 4 * 16 + b / 16)) = some (a % 4 * 16 + b / 16) :=
        charToSixBit_sixBitToChar _ (by omega)
      have h3 : sixBitToChar (b % 16 * 4 + c / 64) ≠ '=' := sixBitToChar_ne_eqpad _ (by omega)
      have h4 : charToSixBit (sixBitToChar (b % 16 * 4 + c / 64)) = some (b % 16 * 4 + c / 64) :=
        charToSixBit_sixBitToChar _ (by omega)
      have h5 : sixBitToChar (c % 64) ≠ '=' := sixBitToChar_ne_eqpad _ (by omega)
      have h6 : charToSixBit (sixBitToChar (c % 64)) = some (c % 64) :=
        charToSixBit_sixBitToChar _ (by omega)
      simp only [base64EncodeChars, base64DecodeChars]
      simp [h1, h2, h3, h4, h5, h6, ih hrest]
      omega

lemma goHasPref_self_append (p s : GoStr) : goHasPref p (p ++ s) = true := by
  induction p with
  | nil => rfl
  | cons a as ih => simp [goHasPref, ih]

lemma not_webpPref_jpeg (s : GoStr) : goHasPref mimeWebp (mimeJpeg ++ s) = false := by
  simp [mimeWebp, mimeJpeg, goHasPref]

lemma not_webpPref_png (s : GoStr) : goHasPref mimeWebp (mimePng ++ s) = false := by
  simp [mimeWebp, mimePng, goHasPref]

lemma not_jpegPref_png (s : GoStr) : goHasPref mimeJpeg (mimePng ++ s) = false := by
  simp [mimeJpeg, mimePng, goHasPref]

lemma encodeImageToBase64_webpSel (decs : Decoders) (data : Bytes) (s : GoStr) :
    encodeImageToBase64 decs data (mimeWebp ++ s) =
      afterDecode (mimeWebp ++ s) data (decs.webpDecode data) := by
  simp [encodeImageToBase64, goHasPref_self_append]

lemma encodeImageToBase64_jpegSel (decs : Decoders) (data : Bytes) (s : GoStr) :
    encodeImageToBase64 decs data (mimeJpeg ++ s) =
      afterDecode (mimeJpeg ++ s) data (decs.jpegDecode data) := by
  simp [encodeImageToBase64, goHasPref_self_append, not_webpPref_jpeg]

lemma encodeImageToBase64_pngSel (decs : Decoders) (data : Bytes) (s : GoStr) :
    encodeImageToBase64 decs data (mimePng ++ s) =
      afterDecode (mimePng ++ s) data (decs.pngDecode data) := by
  simp [encodeImageToBase64, goHasPref_self_append, not_webpPref_png, not_jpegPref_png]

lemma encodeImageToBase64_noMatch (decs : Decoders) (data : Bytes) (m : GoStr)
    (h1 : goHasPref mimeWebp m = false) (h2 : goHasPref mimeJpeg m = false)
    (h3 : goHasPref mimePng m = false) :
    encodeImageToBase64 decs data m = .error (.unsupportedImageType m) := by
  simp [encodeImageToBase64, h1, h2, h3]

lemma afterDecode_ok_payload (m : GoStr) (data : Bytes) (r : Except GoStr Unit) (s : GoStr)
    (h : afterDecode m data r = .ok s) : s = base64EncodeChars data := by
  cases r with
  | ok u => simpa [afterDecode] using h.symm
  | error e => simp [afterDecode] at h

lemma encodeImageToBase64_ok_payload (decs : Decoders) (data : Bytes) (m s : GoStr)
    (h : encodeImageToBase64 decs data m = .ok s) : s = base64EncodeChars data := by
  cases hw : goHasPref mimeWebp m with
  | true =>
      simp [encodeImageToBase64, hw] at h
      exact afterDecode_ok_payload _ _ _ _ h
  | false =>
      cases hj : goHasPref mimeJpeg m with
      | true =>
          simp [encodeImageToBase64, hw, hj] at h
          exact afterDecode_ok_payload _ _ _ _ h
      | false =>
          cases hp : goHasPref mimePng m with
          | true =>
              simp [encodeImageToBase64, hw, hj, hp] at h
              exact afterDecode_ok_payload _ _ _ _ h
          | false =>
              simp [encodeImageToBase64, hw, hj, hp] at h

lemma fetchImage_ok_eq (detect : Bytes → GoStr) (resp : HttpResponse)
    (h : resp.statusCode = 200) :
    fetchImage detect resp = .ok (resp.body, resolvedMime detect resp) := by
  by_cases hc : resp.contentType = [] <;> simp [fetchImage, resolvedMime, h, hc]

lemma exceptBind_ok {α β : Type} (x : α) (f : α → Except GoError β) :
    (Except.ok x >>= f) = f x := rfl

lemma exceptBind_error {α β : Type} (e : GoError) (f : α → Except GoError β) :
    ((Except.error e : Except GoError α) >>= f) = Except.error e := rfl

lemma isDigitCh_digitChar (d : Nat) (h : d < 10) : isDigitCh (digitChar d) = true := by
  interval_cases d <;> decide

lemma isRFC3339Offset_format (off : Int) (h : off.natAbs < 6000) :
    isRFC3339Offset (formatOffset off) = true := by
  by_cases h0 : off = 0
  · simp [formatOffset, h0, isRFC3339Offset]
  · by_cases hpos : 0 < off
    · have hd1 : isDigitCh (digitChar (off.toNat / 60 / 10)) = true :=
        isDigitCh_digitChar _ (by omega)
      have hd2 : isDigitCh (digitChar (off.toNat / 60 % 10)) = true :=
        isDigitCh_digitChar _ (by omega)
      have hd3 : isDigitCh (digitChar (off.toNat % 60 / 10)) = true :=
        isDigitCh_digitChar _ (by omega)
      have hd4 : isDigitCh (digitChar (off.toNat % 60 % 10)) = true :=
        isDigitCh_digitChar _ (by omega)
      simp [formatOffset, h0, hpos, pad2, isRFC3339Offset, hd1, hd2, hd3, hd4]
    · have hd1 : isDigitCh (digitChar ((-off).toNat / 60 / 10)) = true :=
        isDigitCh_digitChar _ (by omega)
      have hd2 : isDigitCh (digitChar ((-off).toNat / 60 % 10)) = true :=
        isDigitCh_digitChar _ (by omega)
      have hd3 : isDigitCh (digitChar ((-off).toNat % 60 / 10)) = true :=
        isDigitCh_digitChar _ (by omega)
      have hd4 : isDigitCh (digitChar ((-off).toNat % 60 % 10)) = true :=
        isDigitCh_digitChar _ (by omega)
      simp [formatOffset, h0, hpos, pad2, isRFC3339Offset, hd1, hd2, hd3, hd4]

lemma isRFC3339_format (t : Timestamp) (hy : t.year < 10000) (hmo : t.month < 100)
    (hd : t.day < 100) (hh : t.hour < 100) (hmi : t.minute < 100) (hs : t.second < 100)
    (hoff : t.tzOffsetMinutes.natAbs < 6000) :
    isRFC3339 (formatRFC3339 t) = true := by
  have h1 : isDigitCh (digitChar (t.year / 1000)) = true := isDigitCh_digitChar _ (by omega)
  have h2 : isDigitCh (digitChar (t.year / 100 % 10)) = true := isDigitCh_digitChar _ (by omega)
  have h3 : isDigitCh (digitChar (t.year / 10 % 10)) = true := isDigitCh_digitChar _ (by omega)
  have h4 : isDigitCh (digitChar (t.year % 10)) = true := isDigitCh_digitChar _ (by omega)
  have h5 : isDigitCh (digitChar (t.month / 10)) = true := isDigitCh_digitChar _ (by omega)
  have h6 : isDigitCh (digitChar (t.month % 10)) = true := isDigitCh_digitChar _ (by omega)
  have h7 : isDigitCh (digitChar (t.day / 10)) = true := isDigitCh_digitChar _ (by omega)
  have h8 : isDigitCh (digitChar (t.day % 10)) = true := isDigitCh_digitChar _ (by omega)
  have h9 : isDigitCh (digitChar (t.hour / 10)) = true := isDigitCh_digitChar _ (by omega)
  have h10 : isDigitCh (digitChar (t.hour % 10)) = true := isDigitCh_digitChar _ (by omega)
  have h11 : isDigitCh (digitChar (t.minute / 10)) = true := isDigitCh_digitChar _ (by omega)
  have h12 : isDigitCh (digitChar (t.minute % 10)) = true := isDigitCh_digitChar _ (by omega)
  have h13 : isDigitCh (digitChar (t.second / 10)) = true := isDigitCh_digitChar _ (by omega)
  have h14 : isDigitCh (digitChar (t.second % 10)) = true := isDigitCh_digitChar _ (by omega)
  have hofs := isRFC3339Offset_format t.tzOffsetMinutes hoff
  simp only [formatRFC3339, pad4, pad2, List.cons_append, List.nil_append]
  simp [isRFC3339, h1, h2, h3, h4, h5, h6, h7, h8, h9, h10, h11, h12, h13, h14, hofs]

lemma substPiece_mem_render (uri ts : GoStr) (p : TemplatePiece) (tmpl : Template)
    (h : p ∈ tmpl) :
    containsSub (substPiece uri ts p) (renderTemplate tmpl uri ts) := by
  induction tmpl with
  | nil => cases h
  | cons q rest ih =>
      rcases List.mem_cons.mp h with rfl | hmem
      · exact ⟨[], (rest.map (substPiece uri ts)).flatten, by simp [renderTemplate]⟩
      · obtain ⟨pre, post, hpp⟩ := ih hmem
        simp only [renderTemplate] at hpp
        exact ⟨substPiece uri ts q ++ pre, post,
          by simp [renderTemplate, hpp, List.append_assoc]⟩

/-- C1: for each supported MIME type (webp, jpeg, png) `encodeImageToBase64`
succeeds exactly when the decoder selected for that type parses the bytes
without error, and for every MIME type matching none of the three
supported prefixes it fails with the "unsupported image type" error for
any decoders (so no decoder is consulted). -/
theorem encodeImageToBase64_validation_iff (decs : Decoders) (data : Bytes) :
    exceptIsOk (encodeImageToBase64 decs data mimeWebp) = exceptIsOk (decs.webpDecode data)
    ∧ exceptIsOk (encodeImageToBase64 decs data mimeJpeg) = exceptIsOk (decs.jpegDecode data)
    ∧ exceptIsOk (encodeImageToBase64 decs data mimePng) = exceptIsOk (decs.pngDecode data)
    ∧ ∀ m : GoStr, goHasPref mimeWebp m = false → goHasPref mimeJpeg m = false →
        goHasPref mimePng m = false →
        encodeImageToBase64 decs data m = .error (.unsupportedImageType m) := by
  have hww : goHasPref mimeWebp mimeWebp = true := by decide
  have hwj : goHasPref mimeWebp mimeJpeg = false := by decide
  have hjj : goHasPref mimeJpeg mimeJpeg = true := by decide
  have hwp : goHasPref mimeWebp mimePng = false := by decide
  have hjp : goHasPref mimeJpeg mimePng = false := by decide
  have hpp : goHasPref mimePng mimePng = true := by decide
  refine ⟨?_, ?_, ?_, fun m h1 h2 h3 => encodeImageToBase64_noMatch decs data m h1 h2 h3⟩
  · cases hr : decs.webpDecode data <;>
      simp [encodeImageToBase64, afterDecode, exceptIsOk, hww, hr]
  · cases hr : decs.jpegDecode data <;>
      simp [encodeImageToBase64, afterDecode, exceptIsOk, hwj, hjj, hr]
  · cases hr : decs.pngDecode data <;>
      simp [encodeImageToBase64, afterDecode, exceptIsOk, hwp, hjp, hpp, hr]

/-- Witness for C1: at concrete inputs, a PNG-typed payload succeeds under
an accepting decoder and a `text/html` MIME type is rejected as
unsupported. -/
theorem encodeImageToBase64_validation_iff_witness :
    encodeImageToBase64 okDecoders [0] "text/html".toList =
      .error (.unsupportedImageType "text/html".toList)
    ∧ exceptIsOk (encodeImageToBase64 okDecoders [0] mimePng) =
        exceptIsOk (okDecoders.pngDecode [0]) :=
  ⟨(encodeImageToBase64_validation_iff okDecoders [0]).2.2.2 "text/html".toList
      (by decide) (by decide) (by decide),
    (encodeImageToBase64_validation_iff okDecoders [0]).2.2.1⟩

/-- C2: whenever `encodeImageToBase64` accepts a byte sequence, base64
decoding of the payload it returns gives back exactly the original input
bytes, so the data URI carries the original fetched bytes, not re-encoded
pixels. -/
theorem encodeImageToBase64_payload_roundtrip (decs : Decoders) (data : Bytes)
    (m s : GoStr) (hb : ∀ b ∈ data, b < 256)
    (h : encodeImageToBase64 decs data m = .ok s) :
    base64DecodeChars s = some data := by
  rw [encodeImageToBase64_ok_payload decs data m s h]
  exact base64_roundtrip data hb

/-- Witness for C2 at a concrete accepted input. -/
theorem encodeImageToBase64_payload_roundtrip_witness :
    base64DecodeChars (base64EncodeChars [77, 97, 110, 255]) = some [77, 97, 110, 255] :=
  encodeImageToBase64_payload_roundtrip okDecoders [77, 97, 110, 255] mimePng
    (base64EncodeChars [77, 97, 110, 255]) (by decide) (by rfl)


/-- C3: when the fetched bytes fail to decode for the resolved MIME type
(here PNG despite `Content-Type: image/png`), the run aborts at the
validation stage with the "invalid image data" error and `main` performs
no file write. -/
theorem pngDecodeFailure_noWrite (detect : Bytes → GoStr) (decs : Decoders)
    (tmplRead : Except GoError Template) (now : Timestamp) (resp : HttpResponse)
    (e : GoStr) (h200 : resp.statusCode = 200) (hct : resp.contentType = mimePng)
    (hdec : decs.pngDecode resp.body = .error e) :
    mainPipeline detect decs tmplRead now resp = .error (.invalidImageData mimePng e)
    ∧ mainWrites detect decs tmplRead now resp = [] := by
  have hr : resolvedMime detect resp = mimePng := by
    simp [resolvedMime, hct, mimePng]
  have hf := fetchImage_ok_eq detect resp h200
  rw [hr] at hf
  have henc : encodeImageToBase64 decs resp.body mimePng =
      .error (.invalidImageData mimePng e) := by
    have h := encodeImageToBase64_pngSel decs resp.body []
    simp only [List.append_nil] at h
    rw [h, hdec]
    rfl
  have hp : mainPipeline detect decs tmplRead now resp =
      .error (.invalidImageData mimePng e) := by
    simp [mainPipeline, hf, henc, exceptBind_ok, exceptBind_error]
  exact ⟨hp, by simp [mainWrites, hp]⟩

/-- Witness for C3 at a concrete response whose PNG decode fails. -/
theorem pngDecodeFailure_noWrite_witness :
    mainWrites (fun _ => []) pngFailDecoders (.ok [TemplatePiece.imageURL]) sampleNow
      ⟨200, mimePng, [1, 2, 3]⟩ = [] :=
  (pngDecodeFailure_noWrite (fun _ => []) pngFailDecoders (.ok [TemplatePiece.imageURL])
    sampleNow ⟨200, mimePng, [1, 2, 3]⟩ "not a PNG".toList rfl rfl rfl).2

/-- C4: a non-200 HTTP status makes `fetchImage` return the
"unexpected status code" error, the whole run is fatal at that stage, and
no output file write is performed. -/
theorem non200_noWrite (detect : Bytes → GoStr) (decs : Decoders)
    (tmplRead : Except GoError Template) (now : Timestamp) (resp : HttpResponse)
    (h : resp.statusCode ≠ 200) :
    fetchImage detect resp = .error (.unexpectedStatusCode resp.statusCode)
    ∧ mainPipeline detect decs tmplRead now resp =
        .error (.unexpectedStatusCode resp.statusCode)
    ∧ mainWrites detect decs tmplRead now resp = [] := by
  have hf : fetchImage detect resp = .error (.unexpectedStatusCode resp.statusCode) := by
    simp [fetchImage, h]
  have hp : mainPipeline detect decs tmplRead now resp =
      .error (.unexpectedStatusCode resp.statusCode) := by
    simp [mainPipeline, hf, exceptBind_ok, exceptBind_error]
  exact ⟨hf, hp, by simp [mainWrites, hp]⟩

/-- Witness for C4 at a concrete 404 response. -/
theorem non200_noWrite_witness :
    mainWrites (fun _ => []) okDecoders (.ok [TemplatePiece.imageURL]) sampleNow
      ⟨404, mimePng, [1]⟩ = [] :=
  (non200_noWrite (fun _ => []) okDecoders (.ok [TemplatePiece.imageURL]) sampleNow
    ⟨404, mimePng, [1]⟩ (by decide)).2.2

/-- C5: for every accepted input, the image reference the pipeline embeds
into the document is exactly `"data:" ++ mimeType ++ ";base64," ++
base64Data`, where the MIME type is the one resolved by the fetcher and
the payload is the standard base64 encoding of the original fetched
bytes (shown on the template consisting of the image placeholder alone,
whose rendering is exactly the embedded reference). -/
theorem pipeline_output_dataURI (detect : Bytes → GoStr) (decs : Decoders)
    (now : Timestamp) (resp : HttpResponse) (md : GoStr)
    (h : mainPipeline detect decs (.ok [TemplatePiece.imageURL]) now resp = .ok md) :
    md = "data:".toList ++ resolvedMime detect resp ++ ";base64,".toList ++
      base64EncodeChars resp.body := by
  by_cases hs : resp.statusCode = 200
  · have hf := fetchImage_ok_eq detect resp hs
    simp only [mainPipeline, hf, exceptBind_ok] at h
    cases he : encodeImageToBase64 decs resp.body (resolvedMime detect resp) with
    | error e => simp [he, exceptBind_error] at h
    | ok s =>
        have hpay := encodeImageToBase64_ok_payload decs resp.body _ s he
        simp only [he, exceptBind_ok, generateMarkdown, renderTemplate, List.map,
          substPiece, List.flatten, List.append_nil, dataURI] at h
        cases h
        simp [hpay, List.append_assoc]
  · have hf : fetchImage detect resp = .error (.unexpectedStatusCode resp.statusCode) := by
      simp [fetchImage, hs]
    simp [mainPipeline, hf, exceptBind_error] at h

/-- Witness for C5 at a concrete accepted response. -/
theorem pipeline_output_dataURI_witness :
    (dataURI mimePng (base64EncodeChars [1, 2]) : GoStr) =
      "data:".toList ++ resolvedMime (fun _ => []) ⟨200, mimePng, [1, 2]⟩ ++
      ";base64,".toList ++ base64EncodeChars ([1, 2] : Bytes) :=
  pipeline_output_dataURI (fun _ => []) okDecoders sampleNow ⟨200, mimePng, [1, 2]⟩
    (dataURI mimePng (base64EncodeChars [1, 2])) (by rfl)

/-- C6: rendering any template containing both placeholders yields a
document that contains the substituted data URI verbatim and the
substituted build timestamp, and that timestamp matches the RFC3339
shape. -/
theorem generateMarkdown_contains (tmpl : Template) (now : Timestamp) (b64 m : GoStr)
    (h1 : TemplatePiece.imageURL ∈ tmpl) (h2 : TemplatePiece.buildTimestamp ∈ tmpl)
    (hy : now.year < 10000) (hmo : now.month < 100) (hd : now.day < 100)
    (hh : now.hour < 100) (hmi : now.minute < 100) (hs : now.second < 100)
    (hoff : now.tzOffsetMinutes.natAbs < 6000) :
    ∃ out, generateMarkdown (.ok tmpl) now b64 m = .ok out
      ∧ containsSub (dataURI m b64) out
      ∧ containsSub (formatRFC3339 now) out
      ∧ isRFC3339 (formatRFC3339 now) = true := by
  refine ⟨renderTemplate tmpl (dataURI m b64) (formatRFC3339 now), rfl, ?_, ?_,
    isRFC3339_format now hy hmo hd hh hmi hs hoff⟩
  · simpa [substPiece] using
      substPiece_mem_render (dataURI m b64) (formatRFC3339 now) TemplatePiece.imageURL tmpl h1
  · simpa [substPiece] using
      substPiece_mem_render (dataURI m b64) (formatRFC3339 now) TemplatePiece.buildTimestamp tmpl h2

/-- Witness for C6 at a concrete template holding both placeholders. -/
theorem generateMarkdown_contains_witness :
    ∃ out, generateMarkdown
        (.ok [TemplatePiece.text "# ".toList, TemplatePiece.imageURL,
              TemplatePiece.text " at ".toList, TemplatePiece.buildTimestamp])
        sampleNow (base64EncodeChars [1]) mimePng = .ok out
      ∧ containsSub (dataURI mimePng (base64EncodeChars [1])) out
      ∧ containsSub (formatRFC3339 sampleNow) out
      ∧ isRFC3339 (formatRFC3339 sampleNow) = true :=
  generateMarkdown_contains _ sampleNow (base64EncodeChars [1]) mimePng
    (by decide) (by decide) (by decide) (by decide) (by decide) (by decide)
    (by decide) (by decide) (by decide)

/-- C7: for every 200 response, the MIME type `fetchImage` returns is the
`Content-Type` header when that header is non-empty, and otherwise the
type sniffed from the body bytes by content detection. -/
theorem fetchImage_resolvedMime (detect : Bytes → GoStr) (resp : HttpResponse)
    (h : resp.statusCode = 200) :
    fetchImage detect resp =
      .ok (resp.body,
        if resp.contentType ≠ [] then resp.contentType else detect resp.body) :=
  fetchImage_ok_eq detect resp h

/-- Witness for C7: header used when present, sniffing used when absent. -/
theorem fetchImage_resolvedMime_witness :
    fetchImage (fun _ => mimeJpeg) ⟨200, mimePng, [1]⟩ = .ok ([1], mimePng)
    ∧ fetchImage (fun _ => mimeJpeg) ⟨200, [], [1]⟩ = .ok ([1], mimeJpeg) :=
  ⟨by simpa using fetchImage_resolvedMime (fun _ => mimeJpeg) ⟨200, mimePng, [1]⟩ rfl,
   by simpa using fetchImage_resolvedMime (fun _ => mimeJpeg) ⟨200, [], [1]⟩ rfl⟩

/-- C8: MIME dispatch is literal case-sensitive prefix matching: every
MIME string beginning with one of the three supported literals — with any
trailing suffix, e.g. parameters — is dispatched to that format's
decoder, while every string matching none of the three prefixes, among
them case variants such as `IMAGE/PNG` and the alias `image/jpg`, takes
the unsupported-type error branch. -/
theorem encodeImageToBase64_dispatch (decs : Decoders) (data : Bytes) :
    (∀ s : GoStr, encodeImageToBase64 decs data (mimeWebp ++ s) =
        afterDecode (mimeWebp ++ s) data (decs.webpDecode data))
    ∧ (∀ s : GoStr, encodeImageToBase64 decs data (mimeJpeg ++ s) =
        afterDecode (mimeJpeg ++ s) data (decs.jpegDecode data))
    ∧ (∀ s : GoStr, encodeImageToBase64 decs data (mimePng ++ s) =
        afterDecode (mimePng ++ s) data (decs.pngDecode data))
    ∧ (∀ m : GoStr, goHasPref mimeWebp m = false → goHasPref mimeJpeg m = false →
        goHasPref mimePng m = false →
        encodeImageToBase64 decs data m = .error (.unsupportedImageType m))
    ∧ encodeImageToBase64 decs data "IMAGE/PNG".toList =
        .error (.unsupportedImageType "IMAGE/PNG".toList)
    ∧ encodeImageToBase64 decs data "image/jpg".toList =
        .error (.unsupportedImageType "image/jpg".toList) :=
  ⟨encodeImageToBase64_webpSel decs data,
   encodeImageToBase64_jpegSel decs data,
   encodeImageToBase64_pngSel decs data,
   fun m h1 h2 h3 => encodeImageToBase64_noMatch decs data m h1 h2 h3,
   encodeImageToBase64_noMatch decs data _ (by decide) (by decide) (by decide),
   encodeImageToBase64_noMatch decs data _ (by decide) (by decide) (by decide)⟩

/-- Witness for C8: a PNG MIME type carrying trailing parameters is still
decoded as PNG at a concrete input, and a string matching none of the
supported prefixes is rejected as unsupported. -/
theorem encodeImageToBase64_dispatch_witness :
    encodeImageToBase64 okDecoders [5] "image/png; charset=x".toList =
      .ok (base64EncodeChars [5])
    ∧ encodeImageToBase64 okDecoders [5] "text/plain".toList =
        .error (.unsupportedImageType "text/plain".toList) := by
  constructor
  · have heq : mimePng ++ "; charset=x".toList = "image/png; charset=x".toList := by decide
    have h := (encodeImageToBase64_dispatch okDecoders [5]).2.2.1 "; charset=x".toList
    rw [heq] at h
    simpa [afterDecode, okDecoders] using h
  · exact (encodeImageToBase64_dispatch okDecoders [5]).2.2.2.1 "text/plain".toList
      (by decide) (by decide) (by decide)

/-- C9: in the file-based variant the saved file's extension is exactly
the one mapped from the detected MIME type (webp→.webp, jpeg→.jpg,
png→.png), the fetch URL plays no role in the chosen name, and the raw
bytes are written unmodified to the fixed path with the static base
filename. -/
theorem saveImageFile_extension (url url2 : GoStr) (data : Bytes) (m ext : GoStr) :
    (extensionForMime mimeWebp = some ".webp".toList
      ∧ extensionForMime mimeJpeg = some ".jpg".toList
      ∧ extensionForMime mimePng = some ".png".toList)
    ∧ (extensionForMime m = some ext →
        saveImageFile url data m = .ok (savedImageBase ++ ext, data))
    ∧ saveImageFile url data m = saveImageFile url2 data m := by
  refine ⟨⟨by decide, by decide, by decide⟩, fun h => ?_, rfl⟩
  simp [saveImageFile, h]

/-- Witness for C9 at a concrete URL whose apparent extension (.gif)
disagrees with the detected MIME type. -/
theorem saveImageFile_extension_witness :
    saveImageFile "https://example.com/pic.gif".toList [9, 8] mimeJpeg =
      .ok (savedImageBase ++ ".jpg".toList, [9, 8]) :=
  (saveImageFile_extension "https://example.com/pic.gif".toList [] [9, 8] mimeJpeg
    ".jpg".toList).2.1 (by decide)

/-- C10: the per-request client timeout is 10 seconds, strictly shorter
than the 30-second overall context deadline set in `main`. -/
theorem timeout_constants :
    clientTimeoutSeconds = 10 ∧ overallDeadlineSeconds = 30 ∧
      clientTimeoutSeconds < overallDeadlineSeconds := by
  decide
